import Mathlib

/-!
Verification of the mermaid-editor render/debounce/persistence pipeline.

Shallow embedding of the behaviorally interesting parts of the repository:

* `debounce` (src/unnamed/part_000, `debounce`): modelled as a timed-event
  semantics.  A wrapped function keeps at most one pending timer
  `(fireTime, args)`; each call cancels the pending timer and schedules a new
  one `delay` in the future with the latest arguments.  A trace of calls
  `(time, args)` with advancing event time is processed left to right; a
  pending timer fires when its fire time is reached before the next call
  arrives, and an outstanding timer at the end of the trace eventually fires.

* `renderDiagram` (src/diagram.js): modelled as a state transformer over an
  `AppState` recording the diagram container's innerHTML, the scratch/temp
  container's innerHTML, the CodeMirror marks and scroll position, the style
  state of the `diagram-pane` and `mermaid-temp` elements, and a ledger of
  pan/zoom instances (next fresh id, live ids, the module-level
  `panZoomInstance` variable).  The outcomes of the external engine calls
  `mermaid.parse` / `mermaid.render` (which may throw) are oracle inputs.

* the error-line extraction in the catch branch of `renderDiagram`,
  including the frontmatter counter and a scanner implementing the
  JavaScript regex `line[\s:]+(\d+)` with the `i` flag;

* the auto-save restore-on-load logic (src/main.js, DOMContentLoaded
  handler), with the outcome of `JSON.parse` as an oracle input;

* `ensureElementVisible` (src/diagram.js) / `ensureDiagramVisible`
  (src/unnamed/part_000): the visibility helper, modelled on an abstract
  element carrying its inline style attribute and computed visibility.
-/

namespace MermaidEditor

/-! ## String primitives

`String.prototype.trim` and `String.prototype.split('\n')` are implemented
structurally over character lists so that every definition in this file
reduces inside the kernel. -/

/-- JavaScript `s.trim()`: drop whitespace from both ends. -/
def jsTrim (s : String) : String :=
  (((s.toList.dropWhile Char.isWhitespace).reverse.dropWhile Char.isWhitespace).reverse).asString

/-- Accumulator pass of `s.split('\n')`. -/
def splitLinesAux : List Char → List Char → List String
  | [], acc => [acc.reverse.asString]
  | c :: rest, acc =>
    if c = '\n' then acc.reverse.asString :: splitLinesAux rest []
    else splitLinesAux rest (c :: acc)

/-- JavaScript `s.split('\n')`: the list of physical lines (the split of the
empty string is `[""]`, and a trailing newline yields a trailing empty
line). -/
def splitLines (s : String) : List String := splitLinesAux s.toList []

/-! ## Debounce (src/unnamed/part_000, `debounce`) -/

/-- One debounce step: `clearTimeout(timeoutId); timeoutId = setTimeout(..., delay)`.
The pending timer (if any) is discarded and replaced by a timer firing at
`t + delay` with the arguments of this call. -/
def debounceCall {α : Type} (delay t : Nat) (args : α) (_pending : Option (Nat × α)) :
    Option (Nat × α) :=
  some (t + delay, args)

/-- Run a trace of calls `(time, args)` through the debounced wrapper, starting
from pending state `pending`, and collect the arguments of every underlying
invocation of `fn`, in order.  A pending timer `(ft, a)` fires before the next
call when `ft ≤ t`; a timer still pending at the end of the trace fires once
time advances past it. -/
def debounceRun {α : Type} (delay : Nat) : List (Nat × α) → Option (Nat × α) → List α
  | [], none => []
  | [], some (_, a) => [a]
  | (t, a) :: rest, none => debounceRun delay rest (debounceCall delay t a none)
  | (t, a) :: rest, some (ft, pa) =>
      if ft ≤ t then
        pa :: debounceRun delay rest (debounceCall delay t a none)
      else
        debounceRun delay rest (debounceCall delay t a (some (ft, pa)))

/-! ## Visibility helper (src/diagram.js `ensureElementVisible`,
src/unnamed/part_000 `ensureDiagramVisible`)

An element is modelled by its inline `style` attribute (`none` = attribute
absent) together with the computed-style facts the helper inspects:
whether computed `display` is `none`, whether computed `visibility` is
`hidden`, and the measured `offsetWidth`. -/

structure Elem where
  styleAttr : Option String
  displayNone : Bool
  visibilityHidden : Bool
  offsetWidth : Nat
deriving DecidableEq

/-- The fixed off-screen style block the helper forces onto a hidden element
(the source writes it as a multi-line template literal). -/
def forcedVisibleStyle : String :=
  "position: fixed !important; left: 0 !important; top: 0 !important; opacity: 0 !important; width: 800px !important; height: 600px !important; display: block !important; pointer-events: none !important; z-index: -9999 !important;"

/-- The restore closure returned by the helper: either the trivial
`() => \x7b\x7d`, or the closure that reapplies the captured original inline
style (removing the attribute when the captured string was empty). -/
inductive RestoreFn where
  | noop : RestoreFn
  | restoreStyle (orig : String) : RestoreFn
deriving DecidableEq

/-- `computedStyle.display === 'none' || computedStyle.visibility === 'hidden' || element.offsetWidth === 0`. -/
def isHiddenElem (e : Elem) : Bool :=
  e.displayNone || e.visibilityHidden || e.offsetWidth == 0

/-- Core of the helper on a present element: if not hidden, return a no-op
restore and leave the element alone; otherwise capture
`getAttribute('style') || ''`, overwrite the style attribute with the forced
block, and return the restoring closure. -/
def ensureVisibleE (e : Elem) : RestoreFn × Elem :=
  if isHiddenElem e then
    (RestoreFn.restoreStyle (e.styleAttr.getD ""), { e with styleAttr := some forcedVisibleStyle })
  else
    (RestoreFn.noop, e)

/-- `ensureElementVisible` including the `if (!element) return () => \x7b\x7d;`
guard for an absent element. -/
def ensureElementVisible : Option Elem → RestoreFn × Option Elem
  | none => (RestoreFn.noop, none)
  | some e => ((ensureVisibleE e).1, some (ensureVisibleE e).2)

/-- Running a restore closure on a present element: the no-op leaves it alone;
the restoring closure sets the style attribute back to the captured original,
or removes the attribute when the captured original was the empty string. -/
def applyRestoreE (r : RestoreFn) (e : Elem) : Elem :=
  match r with
  | RestoreFn.noop => e
  | RestoreFn.restoreStyle o =>
      if o = "" then { e with styleAttr := none } else { e with styleAttr := some o }

/-- Running a restore closure, lifted to a possibly-absent element (the
non-trivial closure is only ever created for a present element). -/
def applyRestore (r : RestoreFn) : Option Elem → Option Elem
  | none => none
  | some e => some (applyRestoreE r e)

/-! ## Error objects and error-line extraction (catch branch of
`renderDiagram`, src/diagram.js) -/

/-- `e.hash.loc` of a thrown engine error: `first_line` is `none` when the
field is `undefined`. -/
structure ErrLoc where
  first_line : Option Int
deriving DecidableEq

/-- `e.hash` of a thrown engine error. -/
structure ErrHash where
  line : Option Int
  loc : Option ErrLoc
deriving DecidableEq

/-- A thrown JavaScript error as inspected by the catch branch: optional
`message` and `str` string fields, the `String(e)` rendering, and the
optional structured `hash`. -/
structure JsError where
  message : Option String
  str : Option String
  asString : String
  hash : Option ErrHash
deriving DecidableEq

/-- JavaScript `a || b` on an optional string: an absent or empty string is
falsy and falls through to `b`. -/
def jsOrString (a : Option String) (b : String) : String :=
  match a with
  | some s => if s = "" then b else s
  | none => b

/-- `const errorMessage = e.message || e.str || String(e);` -/
def resolvedMessage (e : JsError) : String :=
  jsOrString e.message (jsOrString e.str e.asString)

/-- A character matched by `[\s:]` in the line-number regex. -/
def isLineSep (c : Char) : Bool := c.isWhitespace || c == ':'

/-- Numeric value of a digit string (the `parseInt(lineMatch[1], 10)` of the
source, applied to the digits captured by `(\d+)`). -/
def digitsToNat (ds : List Char) : Nat :=
  ds.foldl (fun acc c => 10 * acc + (c.toNat - 48)) 0

/-- Attempt to match the regex `line[\s:]+(\d+)` (case-insensitively) at the
head of the character list: the four letters of `line`, at least one
whitespace-or-colon character, then at least one digit, whose greedy capture
is returned. -/
def tryMatchLineNum (cs : List Char) : Option Nat :=
  match cs with
  | c1 :: c2 :: c3 :: c4 :: rest =>
    if c1.toLower = 'l' ∧ c2.toLower = 'i' ∧ c3.toLower = 'n' ∧ c4.toLower = 'e' then
      let seps := rest.takeWhile isLineSep
      let ds := (rest.dropWhile isLineSep).takeWhile Char.isDigit
      if seps.isEmpty ∨ ds.isEmpty then none else some (digitsToNat ds)
    else none
  | _ => none

/-- Leftmost-match scan for `errorMessage.match(/line[\s:]+(\d+)/i)`: try the
pattern at every position, left to right, and return the first capture. -/
def extractLineNumAux : List Char → Option Nat
  | [] => none
  | c :: rest =>
    match tryMatchLineNum (c :: rest) with
    | some n => some n
    | none => extractLineNumAux rest

/-- The matched 1-based line number of `errorMessage.match(/line[\s:]+(\d+)/i)`,
when the message matches. -/
def extractLineNum (s : String) : Option Nat := extractLineNumAux s.toList

/-- Whether a physical line is a frontmatter delimiter as tested by the
source: truthy (non-empty) and `trim() === '---'`. -/
def isFmDelim (l : String) : Bool := l ≠ "" ∧ jsTrim l = "---"

/-- The loop body of the frontmatter counter: every scanned line after the
opening delimiter counts one, and the closing delimiter counts one more and
stops the scan. -/
def countFrontmatter : List String → Nat
  | [] => 0
  | l :: rest => if isFmDelim l then 2 else 1 + countFrontmatter rest

/-- Number of physical lines of the optional leading `---`-delimited
metadata block of the editor content, as computed in the catch branch. -/
def frontmatterLines (code : String) : Nat :=
  match splitLines code with
  | [] => 0
  | l0 :: rest => if isFmDelim l0 then countFrontmatter rest else 0

/-- The `errorLine` computed by the catch branch: pattern 1 matches
`line[\s:]+(\d+)` in the resolved message; pattern 2 (`e.hash.line`)
overwrites it when present; pattern 3 (`e.hash.loc.first_line`) overwrites
both when present.  Each hit is converted from 1-based to 0-based and shifted
by the frontmatter line count. -/
def computeErrorLine (e : JsError) (content : String) : Option Int :=
  let fm : Int := (frontmatterLines content : Int)
  let fromMessage : Option Int :=
    match extractLineNum (resolvedMessage e) with
    | some n => some ((n : Int) - 1 + fm)
    | none => none
  let afterHashLine : Option Int :=
    match e.hash with
    | some h =>
      match h.line with
      | some hl => some (hl - 1 + fm)
      | none => fromMessage
    | none => fromMessage
  match e.hash with
  | some h =>
    match h.loc with
    | some loc =>
      match loc.first_line with
      | some fl => some (fl - 1 + fm)
      | none => afterHashLine
    | none => afterHashLine
  | none => afterHashLine

/-! ## Editor, marks, pan/zoom ledger, application state -/

/-- A CodeMirror text mark as created by `editor.markText` in the catch
branch: a span on one line with the raw error text as tooltip title (the
source always passes `className: 'error-line'`). -/
structure Mark where
  line : Nat
  chFrom : Nat
  chTo : Nat
  title : String
deriving DecidableEq

/-- The CodeMirror editor as seen by `renderDiagram`: its text, its list of
marks (`getAllMarks` / `markText` / `mark.clear`), and the line last scrolled
to by `scrollIntoView`. -/
structure Editor where
  content : String
  marks : List Mark
  scrollLine : Option Nat
deriving DecidableEq

/-- `editor.lineCount()`. -/
def lineCountOf (content : String) : Nat := (splitLines content).length

/-- `editor.getLine(n)`: `none` when the index is out of range. -/
def getLineOf (content : String) (n : Nat) : Option String := (splitLines content).get? n

/-- Ledger of pan/zoom controller instances: `nextId` is the next fresh
instance identity, `live` the identities created by `window.svgPanZoom` and
not yet destroyed, and `current` the module-level `panZoomInstance`
variable. -/
structure PZState where
  nextId : Nat
  live : List Nat
  current : Option Nat
deriving DecidableEq

/-- `try \x7b panZoomInstance.destroy(); \x7d catch (e) \x7b \x7d` without
nulling the variable (success branch of `renderDiagram`, before creating the
replacement). -/
def pzDestroyOnly (p : PZState) : PZState :=
  match p.current with
  | none => p
  | some i => { p with live := p.live.erase i }

/-- The empty-input branch: destroy the instance and null the variable. -/
def pzDestroyAndNull (p : PZState) : PZState :=
  match p.current with
  | none => p
  | some i => { nextId := p.nextId, live := p.live.erase i, current := none }

/-- `panZoomInstance = window.svgPanZoom(svgElement, ...)`: a fresh live
instance becomes current. -/
def pzCreate (p : PZState) : PZState :=
  { nextId := p.nextId + 1, live := p.live ++ [p.nextId], current := some p.nextId }

/-- The application state read and written by `renderDiagram`: the editor,
the innerHTML of the `mermaid-diagram` container (the displayed artifact),
the innerHTML of the `mermaid-temp` scratch container, the style state of
the `diagram-pane` and `mermaid-temp` elements, and the pan/zoom ledger. -/
structure AppState where
  editor : Editor
  diagram : String
  temp : String
  pane : Elem
  tempEl : Elem
  pz : PZState
deriving DecidableEq

/-- Outcome of `await window.mermaid.parse(mermaidCode)`: a thrown error or a
returned (possibly falsy) value. -/
inductive ParseOutcome where
  | throws (e : JsError)
  | ok (result : Bool)
deriving DecidableEq

/-- Outcome of `await window.mermaid.render(uniqueId, mermaidCode)`: a thrown
error, or a result whose `svg` markup is swapped into the diagram container;
`svgFound` records whether `mermaidDiagram.querySelector('svg')` finds an
element afterwards (for real engine output it always does). -/
inductive RenderOutcome where
  | throws (e : JsError)
  | ok (svg : String) (svgFound : Bool)
deriving DecidableEq

/-- The engine oracle for one `renderDiagram` call. -/
structure RenderInput where
  parse : ParseOutcome
  render : RenderOutcome
deriving DecidableEq

/-- Result of a `renderDiagram` call: the final state, plus whether the
engine's parse and render operations were called. -/
structure RenderResult where
  state : AppState
  parseCalled : Bool
  renderCalled : Bool
deriving DecidableEq

/-- The error-annotation part of the catch branch: compute `errorLine`; when
it resolved and is non-negative, read the line's length, clear all existing
marks, and when the line is in range install the single red-underline mark
and scroll to it. -/
def annotateError (e : JsError) (s : AppState) : AppState :=
  match computeErrorLine e s.editor.content with
  | none => s
  | some el =>
    if 0 ≤ el then
      let content := s.editor.content
      let lineLength := ((getLineOf content el.toNat).map String.length).getD 0
      let cleared : Editor := { s.editor with marks := [] }
      if el < (lineCountOf content : Int) then
        { s with editor := { cleared with
            marks := [⟨el.toNat, 0, lineLength, resolvedMessage e⟩],
            scrollLine := some el.toNat } }
      else { s with editor := cleared }
    else s

/-- The whole catch branch: clear the scratch container, annotate the error
line, then run the two visibility restore closures (which were the initial
no-ops when the failure happened before they were acquired). -/
def catchHandler (e : JsError) (rPane rTemp : RestoreFn) (s : AppState) : AppState :=
  let s1 := annotateError e { s with temp := "" }
  { s1 with pane := applyRestoreE rPane s1.pane, tempEl := applyRestoreE rTemp s1.tempEl }

/-- `renderDiagram(editor)` (src/diagram.js), as a state transformer with the
engine outcomes supplied as an oracle.  The DOM mutations made directly on
the rendered `svg` element (its `style.maxWidth`, `height`, `width`) and the
zoom-percentage display are pan/zoom wiring not reflected in the modelled
innerHTML string. -/
def renderDiagram (inp : RenderInput) (s : AppState) : RenderResult :=
  let mermaidCode := jsTrim s.editor.content
  if mermaidCode = "" then
    { state := { s with diagram := "", pz := pzDestroyAndNull s.pz },
      parseCalled := false, renderCalled := false }
  else
    match inp.parse with
    | ParseOutcome.throws e =>
        { state := catchHandler e RestoreFn.noop RestoreFn.noop s,
          parseCalled := true, renderCalled := false }
    | ParseOutcome.ok false =>
        { state := s, parseCalled := true, renderCalled := false }
    | ParseOutcome.ok true =>
        let pPane := ensureVisibleE s.pane
        let pTemp := ensureVisibleE s.tempEl
        let s1 : AppState := { s with pane := pPane.2, tempEl := pTemp.2, temp := "" }
        match inp.render with
        | RenderOutcome.throws e =>
            { state := catchHandler e pPane.1 pTemp.1 s1,
              parseCalled := true, renderCalled := true }
        | RenderOutcome.ok svg svgFound =>
            let s2 : AppState :=
              { s1 with diagram := svg, editor := { s1.editor with marks := [] } }
            let s3 : AppState :=
              if svgFound then { s2 with pz := pzCreate (pzDestroyOnly s2.pz) } else s2
            let s4 : AppState :=
              { s3 with pane := applyRestoreE pPane.1 s3.pane,
                        tempEl := applyRestoreE pTemp.1 s3.tempEl }
            { state := s4, parseCalled := true, renderCalled := true }

/-- A render step in a sequence: the editor content in force when the step
runs (the user may edit between renders), and the engine oracle for the
step. -/
def runRenders (steps : List (String × RenderInput)) (s : AppState) : AppState :=
  steps.foldl
    (fun st step =>
      (renderDiagram step.2 { st with editor := { st.editor with content := step.1 } }).state)
    s

/-! ## Auto-save load (src/main.js, DOMContentLoaded handler) -/

/-- The parsed auto-save bundle `\x7bcode, timestamp\x7d`; a missing field is
`none`. -/
structure SavedBundle where
  code : Option String
  timestamp : Option Int
deriving DecidableEq

/-- Outcome of `JSON.parse(savedData)`: a thrown error (malformed JSON), or a
value — `success none` models a parsed value that is falsy (e.g. `null`),
`success (some b)` an object with the two optional fields. -/
inductive JsonOutcome where
  | failure
  | success (v : Option SavedBundle)
deriving DecidableEq

/-- The load-time restore logic: when no code arrived from the shareable
link, read the stored bundle; on malformed JSON fall through (log only);
when the bundle and both its fields are truthy, restore the code if the
timestamp is within the TTL and otherwise remove the entry.  Returns the
resulting editor content and the resulting stored entry. -/
def loadAutoSave (loadedFromUrl : Bool) (stored : Option String) (parsed : JsonOutcome)
    (now ttl : Int) (editorContent : String) : String × Option String :=
  if loadedFromUrl then (editorContent, stored)
  else
    match stored with
    | none => (editorContent, stored)
    | some _ =>
      match parsed with
      | JsonOutcome.failure => (editorContent, stored)
      | JsonOutcome.success none => (editorContent, stored)
      | JsonOutcome.success (some b) =>
        match b.timestamp, b.code with
        | some ts, some c =>
          if ts ≠ 0 ∧ c ≠ "" then
            if now - ts < ttl then (c, stored) else (editorContent, none)
          else (editorContent, stored)
        | some _, none => (editorContent, stored)
        | none, _ => (editorContent, stored)

/-! ## Predicates and sample objects used in the statements -/

/-- A render attempt fails when validation throws, validation reports a falsy
result, or the render engine call throws. -/
def renderAttemptFails (inp : RenderInput) : Bool :=
  match inp.parse with
  | ParseOutcome.throws _ => true
  | ParseOutcome.ok false => true
  | ParseOutcome.ok true =>
    match inp.render with
    | RenderOutcome.throws _ => true
    | RenderOutcome.ok _ _ => false

/-- A render step on non-empty input on which every engine call succeeds and
the rendered markup contains an svg element. -/
def goodStep (p : String × RenderInput) : Prop :=
  jsTrim p.1 ≠ "" ∧ p.2.parse = ParseOutcome.ok true ∧
    ∃ svg, p.2.render = RenderOutcome.ok svg true

/-- The pan/zoom ledger is consistent when the live instances are exactly the
one held by the module-level variable (none when the variable is null). -/
def pzConsistent (p : PZState) : Prop := p.live = p.current.toList

/-- An element that is plainly visible: no display or visibility hiding and a
positive measured width. -/
def visibleElem : Elem := ⟨none, false, false, 100⟩

/-- A baseline application state over the given editor content: one old
diagram displayed, empty scratch container, visible pane and temp elements,
fresh pan/zoom ledger, no marks. -/
def baseState (content : String) : AppState :=
  { editor := ⟨content, [], none⟩
    diagram := "<svg>old</svg>"
    temp := ""
    pane := visibleElem
    tempEl := visibleElem
    pz := ⟨0, [], none⟩ }

/-- The engine error of the spec's worked example: message
`Parse error on line 15`, no structured hash. -/
def sampleError15 : JsError := ⟨some "Parse error on line 15", none, "", none⟩

/-- An engine error carrying no line information at all: a message the
line-number regex does not match and no structured hash. -/
def noLineError : JsError := ⟨some "boom", none, "", none⟩

/-- Editor content of 20 physical lines, each the single character `a`. -/
def twentyLines : String :=
  "a\na\na\na\na\na\na\na\na\na\na\na\na\na\na\na\na\na\na\na"

/-- A baseline state whose editor already carries one active error
annotation. -/
def markedState : AppState :=
  { baseState "graph TD" with editor := ⟨"graph TD", [⟨0, 0, 5, "old"⟩], none⟩ }

/-! ## Helper lemmas -/

/-- The catch-branch annotation only replaces the editor component, and keeps
the editor text. -/
lemma annotateError_shape (e : JsError) (s : AppState) :
    ∃ ed : Editor, annotateError e s = { s with editor := ed } ∧
      ed.content = s.editor.content := by
  unfold annotateError
  cases computeErrorLine e s.editor.content with
  | none => exact ⟨s.editor, rfl, rfl⟩
  | some el =>
    dsimp only
    split_ifs with h1 h2
    · exact ⟨_, rfl, rfl⟩
    · exact ⟨_, rfl, rfl⟩
    · exact ⟨s.editor, rfl, rfl⟩

/-- The catch branch never touches the displayed diagram. -/
lemma catchHandler_diagram (e : JsError) (r1 r2 : RestoreFn) (s : AppState) :
    (catchHandler e r1 r2 s).diagram = s.diagram := by
  unfold catchHandler
  obtain ⟨ed, hed, -⟩ := annotateError_shape e { s with temp := "" }
  rw [hed]

/-- The catch branch never touches the pan/zoom ledger. -/
lemma catchHandler_pz (e : JsError) (r1 r2 : RestoreFn) (s : AppState) :
    (catchHandler e r1 r2 s).pz = s.pz := by
  unfold catchHandler
  obtain ⟨ed, hed, -⟩ := annotateError_shape e { s with temp := "" }
  rw [hed]

/-- The catch branch never touches the editor text. -/
lemma catchHandler_content (e : JsError) (r1 r2 : RestoreFn) (s : AppState) :
    (catchHandler e r1 r2 s).editor.content = s.editor.content := by
  unfold catchHandler
  obtain ⟨ed, hed, hc⟩ := annotateError_shape e { s with temp := "" }
  rw [hed]
  exact hc

/-- The annotation step leaves at most one mark when at most one was there. -/
lemma annotateError_marks_le_one (e : JsError) (s : AppState)
    (h : s.editor.marks.length ≤ 1) :
    (annotateError e s).editor.marks.length ≤ 1 := by
  unfold annotateError
  cases computeErrorLine e s.editor.content with
  | none => exact h
  | some el =>
    dsimp only
    split_ifs with h1 h2
    · simp
    · simp
    · exact h

/-- The annotation step clears the existing marks whenever the error line
resolved to a non-negative index. -/
lemma annotateError_marks_cleared (e : JsError) (s : AppState) (el : Int)
    (hel : computeErrorLine e s.editor.content = some el) (hnonneg : 0 ≤ el) :
    (annotateError e s).editor.marks.length ≤ 1 := by
  unfold annotateError
  rw [hel]
  dsimp only
  rw [if_pos hnonneg]
  split_ifs <;> simp

/-- Restore closures are constant on the style attribute, hence running one
twice equals running it once. -/
lemma applyRestore_idem (r : RestoreFn) (x : Option Elem) :
    applyRestore r (applyRestore r x) = applyRestore r x := by
  cases r with
  | noop => cases x <;> rfl
  | restoreStyle o =>
    cases x with
    | none => rfl
    | some e =>
      simp only [applyRestore, applyRestoreE]
      split_ifs <;> rfl

/-- Path equation: the empty-input branch. -/
lemma renderDiagram_empty (inp : RenderInput) (s : AppState)
    (h : jsTrim s.editor.content = "") :
    renderDiagram inp s =
      { state := { s with diagram := "", pz := pzDestroyAndNull s.pz },
        parseCalled := false, renderCalled := false } := by
  unfold renderDiagram
  dsimp only
  rw [if_pos h]

/-- Path equation: validation throws. -/
lemma renderDiagram_parse_throws (inp : RenderInput) (s : AppState) (e : JsError)
    (hne : ¬ jsTrim s.editor.content = "") (hp : inp.parse = ParseOutcome.throws e) :
    renderDiagram inp s =
      { state := catchHandler e RestoreFn.noop RestoreFn.noop s,
        parseCalled := true, renderCalled := false } := by
  unfold renderDiagram
  dsimp only
  rw [if_neg hne, hp]

/-- Path equation: validation reports a falsy result. -/
lemma renderDiagram_parse_false (inp : RenderInput) (s : AppState)
    (hne : ¬ jsTrim s.editor.content = "") (hp : inp.parse = ParseOutcome.ok false) :
    renderDiagram inp s = { state := s, parseCalled := true, renderCalled := false } := by
  unfold renderDiagram
  dsimp only
  rw [if_neg hne, hp]

/-- Path equation: validation passes and the render call throws. -/
lemma renderDiagram_render_throws (inp : RenderInput) (s : AppState) (e : JsError)
    (hne : ¬ jsTrim s.editor.content = "") (hp : inp.parse = ParseOutcome.ok true)
    (hr : inp.render = RenderOutcome.throws e) :
    renderDiagram inp s =
      { state := catchHandler e (ensureVisibleE s.pane).1 (ensureVisibleE s.tempEl).1
          { s with pane := (ensureVisibleE s.pane).2, tempEl := (ensureVisibleE s.tempEl).2,
                   temp := "" },
        parseCalled := true, renderCalled := true } := by
  unfold renderDiagram
  dsimp only
  rw [if_neg hne, hp, hr]

/-- Successful renders leave no marks. -/
lemma renderDiagram_success_marks (inp : RenderInput) (s : AppState) (svg : String)
    (found : Bool) (hne : ¬ jsTrim s.editor.content = "")
    (hp : inp.parse = ParseOutcome.ok true) (hr : inp.render = RenderOutcome.ok svg found) :
    (renderDiagram inp s).state.editor.marks = [] := by
  unfold renderDiagram
  dsimp only
  rw [if_neg hne, hp, hr]
  cases found <;> rfl

/-- Successful renders with the svg element found replace the pan/zoom
instance: destroy the previous one, create a fresh one. -/
lemma renderDiagram_success_pz (inp : RenderInput) (s : AppState) (svg : String)
    (hne : ¬ jsTrim s.editor.content = "") (hp : inp.parse = ParseOutcome.ok true)
    (hr : inp.render = RenderOutcome.ok svg true) :
    (renderDiagram inp s).state.pz = pzCreate (pzDestroyOnly s.pz) := by
  unfold renderDiagram
  dsimp only
  rw [if_neg hne, hp, hr]
  rfl

/-- Failed attempts (validation falsy, validation throw, render throw) never
touch the pan/zoom ledger. -/
lemma renderDiagram_fail_pz (inp : RenderInput) (s : AppState)
    (hne : ¬ jsTrim s.editor.content = "") (hf : renderAttemptFails inp = true) :
    (renderDiagram inp s).state.pz = s.pz := by
  cases hp : inp.parse with
  | throws e => rw [renderDiagram_parse_throws inp s e hne hp]; exact catchHandler_pz ..
  | ok b =>
    cases b with
    | false => rw [renderDiagram_parse_false inp s hne hp]
    | true =>
      cases hr : inp.render with
      | throws e =>
        rw [renderDiagram_render_throws inp s e hne hp hr]
        exact catchHandler_pz ..
      | ok svg found =>
        exfalso
        unfold renderAttemptFails at hf
        rw [hp, hr] at hf
        exact Bool.false_ne_true hf

/-- Destroying and nulling preserves ledger consistency. -/
lemma pzDestroyAndNull_consistent (p : PZState) (h : pzConsistent p) :
    pzConsistent (pzDestroyAndNull p) := by
  unfold pzConsistent pzDestroyAndNull at *
  cases hc : p.current with
  | none => rw [hc] at h; simpa [hc] using h
  | some i => rw [hc] at h; simp [hc, h]

/-- Destroying and nulling always nulls the module-level variable. -/
lemma pzDestroyAndNull_current (p : PZState) : (pzDestroyAndNull p).current = none := by
  unfold pzDestroyAndNull
  cases hc : p.current with
  | none => exact hc
  | some i => rfl

/-- Replacing the instance (destroy old, create fresh) preserves ledger
consistency. -/
lemma pzCreate_destroy_consistent (p : PZState) (h : pzConsistent p) :
    pzConsistent (pzCreate (pzDestroyOnly p)) := by
  unfold pzConsistent pzCreate pzDestroyOnly at *
  cases hc : p.current with
  | none => rw [hc] at h; simp [hc, h]
  | some i => rw [hc] at h; simp [hc, h]

/-- Every `renderDiagram` path preserves ledger consistency. -/
lemma renderDiagram_pz_consistent (inp : RenderInput) (s : AppState)
    (h : pzConsistent s.pz) : pzConsistent (renderDiagram inp s).state.pz := by
  by_cases hempty : jsTrim s.editor.content = ""
  · rw [renderDiagram_empty inp s hempty]
    exact pzDestroyAndNull_consistent s.pz h
  · cases hp : inp.parse with
    | throws e =>
      rw [renderDiagram_parse_throws inp s e hempty hp, catchHandler_pz]
      exact h
    | ok b =>
      cases b with
      | false => rw [renderDiagram_parse_false inp s hempty hp]; exact h
      | true =>
        cases hr : inp.render with
        | throws e =>
          rw [renderDiagram_render_throws inp s e hempty hp hr, catchHandler_pz]
          exact h
        | ok svg found =>
          cases found with
          | true =>
            rw [renderDiagram_success_pz inp s svg hempty hp hr]
            exact pzCreate_destroy_consistent s.pz h
          | false =>
            unfold renderDiagram
            dsimp only
            rw [if_neg hempty, hp, hr]
            exact h

/-- The catch branch leaves at most one mark when at most one was there. -/
lemma catchHandler_marks_le_one (e : JsError) (r1 r2 : RestoreFn) (s : AppState)
    (h : s.editor.marks.length ≤ 1) :
    (catchHandler e r1 r2 s).editor.marks.length ≤ 1 := by
  unfold catchHandler
  exact annotateError_marks_le_one e { s with temp := "" } h

/-- Destroying the current instance does not consume the fresh-id counter. -/
lemma pzDestroyOnly_nextId (p : PZState) : (pzDestroyOnly p).nextId = p.nextId := by
  unfold pzDestroyOnly
  cases hc : p.current <;> rfl

/-- After a successful render with the svg element found, the module-level
variable holds the freshly created instance. -/
lemma renderDiagram_success_current (inp : RenderInput) (s : AppState) (svg : String)
    (hne : ¬ jsTrim s.editor.content = "") (hp : inp.parse = ParseOutcome.ok true)
    (hr : inp.render = RenderOutcome.ok svg true) :
    (renderDiagram inp s).state.pz.current = some s.pz.nextId := by
  rw [renderDiagram_success_pz inp s svg hne hp hr]
  unfold pzCreate
  rw [pzDestroyOnly_nextId]

/-- Unfolding one step of a render sequence. -/
lemma runRenders_cons (p : String × RenderInput) (rest : List (String × RenderInput))
    (s : AppState) :
    runRenders (p :: rest) s =
      runRenders rest
        (renderDiagram p.2 { s with editor := { s.editor with content := p.1 } }).state := rfl

/-- Core of the exactly-one-instance invariant: from a consistent ledger, a
non-empty sequence of good render steps ends with the module variable holding
the single live instance. -/
lemma runRenders_good :
    ∀ (steps : List (String × RenderInput)) (s : AppState), pzConsistent s.pz →
      steps ≠ [] → (∀ p ∈ steps, goodStep p) →
      ∃ i, (runRenders steps s).pz.current = some i ∧ (runRenders steps s).pz.live = [i]
  | [], _, _, hne, _ => absurd rfl hne
  | [p], s, hcons, _, hgood => by
      obtain ⟨hne', hp, svg, hr⟩ := hgood p (List.mem_singleton_self p)
      have hcur := renderDiagram_success_current p.2
        { s with editor := { s.editor with content := p.1 } } svg hne' hp hr
      have hc2 := renderDiagram_pz_consistent p.2
        { s with editor := { s.editor with content := p.1 } } hcons
      unfold pzConsistent at hc2
      rw [hcur] at hc2
      exact ⟨s.pz.nextId, hcur, hc2⟩
  | p :: q :: rest, s, hcons, _, hgood => by
      have h1 := renderDiagram_pz_consistent p.2
        { s with editor := { s.editor with content := p.1 } } hcons
      have h2 := runRenders_good (q :: rest)
        (renderDiagram p.2 { s with editor := { s.editor with content := p.1 } }).state
        h1 (by simp) (fun x hx => hgood x (List.mem_cons_of_mem p hx))
      rw [runRenders_cons]
      exact h2

/-- Successive calls closer together than `delay` keep cancelling the pending
timer, so from a pending timer scheduled by the previous call the trace fires
exactly once, with the last call's arguments. -/
lemma debounceRun_close {α : Type} (delay : Nat) :
    ∀ (rest : List (Nat × α)) (t : Nat) (a : α),
      List.Chain' (fun p q : Nat × α => q.1 < p.1 + delay) ((t, a) :: rest) →
      debounceRun delay rest (some (t + delay, a)) =
        [(((t, a) :: rest).getLast (by simp)).2]
  | [], t, a, _ => by simp [debounceRun]
  | (t', a') :: rest', t, a, hchain => by
      have h1 : t' < t + delay := (List.chain'_cons.mp hchain).1
      have h2 : List.Chain' (fun p q : Nat × α => q.1 < p.1 + delay) ((t', a') :: rest') :=
        (List.chain'_cons.mp hchain).2
      have hfire : ¬ (t + delay ≤ t') := by omega
      rw [debounceRun]
      simp only [hfire, if_false]
      rw [debounceCall, debounceRun_close delay rest' t' a' h2]
      simp [List.getLast_cons]

/-! ## Claim theorems -/

/-- Claim C1: For every function and delay, calling the debounced wrapper N ≥ 1
times with each call less than `delay` after the previous one results in
exactly one underlying invocation of the wrapped function, receiving the
arguments of the last of the N calls; every earlier pending scheduled
invocation is cancelled (no other invocation appears in the trace). -/
theorem debounce_single_invocation_last_args {α : Type} (delay : Nat)
    (calls : List (Nat × α)) (hne : calls ≠ [])
    (hclose : List.Chain' (fun p q : Nat × α => q.1 < p.1 + delay) calls) :
    MermaidEditor.debounceRun delay calls none = [(calls.getLast hne).2] := by
  match calls, hne with
  | (t, a) :: rest, _ =>
    rw [MermaidEditor.debounceRun, MermaidEditor.debounceCall]
    exact MermaidEditor.debounceRun_close delay rest t a hclose

/-- Witness for C1: three calls at times 0, 5, 9 with delay 10 produce exactly
one invocation, carrying the third call's arguments. -/
theorem debounce_single_invocation_last_args_witness :
    MermaidEditor.debounceRun 10 [(0, 1), (5, 2), (9, 3)] none = [3] := by
  have h := debounce_single_invocation_last_args (α := Nat) 10 [(0, 1), (5, 2), (9, 3)]
    (by decide)
    (List.chain'_cons.mpr ⟨by norm_num, List.chain'_cons.mpr ⟨by norm_num,
      List.chain'_singleton _⟩⟩)
  simpa using h

/-- Claim C2: For every editor content whose render attempt fails (validation
reports failure, or the parse/render engine call throws), the content of the
visible diagram container is identical before and after the failed
`renderDiagram` call. -/
theorem render_failure_preserves_displayed_diagram (inp : MermaidEditor.RenderInput)
    (s : MermaidEditor.AppState) (hne : jsTrim s.editor.content ≠ "")
    (hf : MermaidEditor.renderAttemptFails inp = true) :
    (MermaidEditor.renderDiagram inp s).state.diagram = s.diagram := by
  cases hp : inp.parse with
  | throws e =>
    rw [MermaidEditor.renderDiagram_parse_throws inp s e hne hp]
    exact MermaidEditor.catchHandler_diagram ..
  | ok b =>
    cases b with
    | false => rw [MermaidEditor.renderDiagram_parse_false inp s hne hp]
    | true =>
      cases hr : inp.render with
      | throws e =>
        rw [MermaidEditor.renderDiagram_render_throws inp s e hne hp hr]
        exact MermaidEditor.catchHandler_diagram ..
      | ok svg found =>
        exfalso
        unfold MermaidEditor.renderAttemptFails at hf
        rw [hp, hr] at hf
        exact Bool.false_ne_true hf

/-- Witness for C2: a validation throw on non-empty content leaves the old
displayed markup in place. -/
theorem render_failure_preserves_displayed_diagram_witness :
    (MermaidEditor.renderDiagram
        ⟨MermaidEditor.ParseOutcome.throws MermaidEditor.noLineError,
          MermaidEditor.RenderOutcome.ok "" true⟩
        (MermaidEditor.baseState "graph TD")).state.diagram =
      (MermaidEditor.baseState "graph TD").diagram :=
  render_failure_preserves_displayed_diagram _ _ (by decide) rfl

/-- Claim C3: When the error message matches `line[:\s]+digits` with 1-based
capture L and the error carries no structured hash, the computed annotation
index is L - 1 + frontmatterLines; in particular `Parse error on line 15`
maps to index 14 with no frontmatter and to 17 with a 3-line frontmatter
block, and a failed render on a 20-line document marks editor line 14. -/
theorem message_error_line_mapping :
    (∀ (e : MermaidEditor.JsError) (content : String) (L : Nat),
        e.hash = none →
        MermaidEditor.extractLineNum (MermaidEditor.resolvedMessage e) = some L →
        MermaidEditor.computeErrorLine e content =
          some ((L : Int) - 1 + (MermaidEditor.frontmatterLines content : Int)))
    ∧ MermaidEditor.computeErrorLine MermaidEditor.sampleError15 "graph TD" = some 14
    ∧ MermaidEditor.computeErrorLine MermaidEditor.sampleError15
        "---\ntitle: x\n---\ngraph TD" = some 17
    ∧ ((MermaidEditor.renderDiagram
          ⟨MermaidEditor.ParseOutcome.throws MermaidEditor.sampleError15,
            MermaidEditor.RenderOutcome.ok "" true⟩
          (MermaidEditor.baseState MermaidEditor.twentyLines)).state.editor.marks).map
        MermaidEditor.Mark.line = [14] := by
  refine ⟨?_, by decide, by decide, by decide⟩
  intro e content L hhash hmatch
  simp only [MermaidEditor.computeErrorLine, hhash, hmatch]

/-- Witness for C3: a message matching the pattern, with no hash, on
frontmatter-free content. -/
theorem message_error_line_mapping_witness :
    MermaidEditor.computeErrorLine ⟨some "error at line 7", none, "", none⟩ "a\nb" =
      some 6 := by
  have h := message_error_line_mapping.1 ⟨some "error at line 7", none, "", none⟩ "a\nb" 7
    rfl (by decide)
  rw [h]
  decide

/-- Claim C4: Later-checked error-line sources overwrite earlier ones:
`hash.loc.first_line`, when present, decides the line regardless of the
message text and of `hash.line`; `hash.line`, when present with
`hash.loc.first_line` absent, overrides a message-text match. -/
theorem error_line_source_precedence :
    (∀ (e : MermaidEditor.JsError) (content : String) (h : MermaidEditor.ErrHash)
        (loc : MermaidEditor.ErrLoc) (fl : Int),
        e.hash = some h → h.loc = some loc → loc.first_line = some fl →
        MermaidEditor.computeErrorLine e content =
          some (fl - 1 + (MermaidEditor.frontmatterLines content : Int)))
    ∧ (∀ (e : MermaidEditor.JsError) (content : String) (h : MermaidEditor.ErrHash)
        (hl : Int),
        e.hash = some h → h.line = some hl →
        h.loc.bind MermaidEditor.ErrLoc.first_line = none →
        MermaidEditor.computeErrorLine e content =
          some (hl - 1 + (MermaidEditor.frontmatterLines content : Int))) := by
  constructor
  · intro e content h loc fl he hloc hfl
    simp only [MermaidEditor.computeErrorLine, he, hloc, hfl]
  · intro e content h hl he hline habs
    cases hloc : h.loc with
    | none => simp only [MermaidEditor.computeErrorLine, he, hline, hloc]
    | some loc =>
      rw [hloc, Option.some_bind] at habs
      simp only [MermaidEditor.computeErrorLine, he, hline, hloc, habs]

/-- Witness for C4: an error carrying all three sources uses
`hash.loc.first_line`. -/
theorem error_line_source_precedence_witness :
    MermaidEditor.computeErrorLine
        ⟨some "Parse error on line 15", none, "", some ⟨some 4, some ⟨some 9⟩⟩⟩ "x" =
      some 8 := by
  have h := error_line_source_precedence.1
    ⟨some "Parse error on line 15", none, "", some ⟨some 4, some ⟨some 9⟩⟩⟩ "x"
    ⟨some 4, some ⟨some 9⟩⟩ ⟨some 9⟩ 9 rfl rfl rfl
  rw [h]
  decide

/-- Claim C5: On editor content that is empty after trimming, `renderDiagram`
clears the diagram container, destroys and nulls any live pan/zoom instance,
and returns without calling the engine's parse or render operation and
without touching the editor (in particular its annotations). -/
theorem empty_input_clears_and_skips_engine (inp : MermaidEditor.RenderInput)
    (s : MermaidEditor.AppState) (h : jsTrim s.editor.content = "") :
    (MermaidEditor.renderDiagram inp s).state.diagram = "" ∧
    (MermaidEditor.renderDiagram inp s).state.pz.current = none ∧
    (∀ i, s.pz.current = some i →
      (MermaidEditor.renderDiagram inp s).state.pz.live = s.pz.live.erase i) ∧
    (MermaidEditor.renderDiagram inp s).parseCalled = false ∧
    (MermaidEditor.renderDiagram inp s).renderCalled = false ∧
    (MermaidEditor.renderDiagram inp s).state.editor = s.editor := by
  rw [MermaidEditor.renderDiagram_empty inp s h]
  refine ⟨rfl, MermaidEditor.pzDestroyAndNull_current s.pz, ?_, rfl, rfl, rfl⟩
  intro i hi
  unfold MermaidEditor.pzDestroyAndNull
  rw [hi]

/-- Witness for C5: whitespace-only content clears the diagram and skips the
engine. -/
theorem empty_input_clears_and_skips_engine_witness :
    (MermaidEditor.renderDiagram
        ⟨MermaidEditor.ParseOutcome.ok true, MermaidEditor.RenderOutcome.ok "x" true⟩
        (MermaidEditor.baseState "  ")).state.diagram = "" ∧
    (MermaidEditor.renderDiagram
        ⟨MermaidEditor.ParseOutcome.ok true, MermaidEditor.RenderOutcome.ok "x" true⟩
        (MermaidEditor.baseState "  ")).parseCalled = false := by
  have h := empty_input_clears_and_skips_engine
    ⟨MermaidEditor.ParseOutcome.ok true, MermaidEditor.RenderOutcome.ok "x" true⟩
    (MermaidEditor.baseState "  ") (by decide)
  exact ⟨h.1, h.2.2.2.1⟩

/-- Claim C6: On load with no code from the shareable link, a stored bundle with
timestamp now - (TTL+1) is discarded and its storage entry removed; one with
timestamp now - (TTL-1) is restored into the editor; malformed JSON is caught
and treated as absence of saved state. -/
theorem autosave_ttl_boundary (now ttl : Int) (c str ec : String)
    (hc : c ≠ "") (h1 : now - (ttl + 1) ≠ 0) (h2 : now - (ttl - 1) ≠ 0) :
    MermaidEditor.loadAutoSave false (some str)
        (MermaidEditor.JsonOutcome.success (some ⟨some c, some (now - (ttl + 1))⟩))
        now ttl ec = (ec, none)
    ∧ MermaidEditor.loadAutoSave false (some str)
        (MermaidEditor.JsonOutcome.success (some ⟨some c, some (now - (ttl - 1))⟩))
        now ttl ec = (c, some str)
    ∧ MermaidEditor.loadAutoSave false (some str) MermaidEditor.JsonOutcome.failure
        now ttl ec = (ec, some str) := by
  refine ⟨?_, ?_, rfl⟩
  · show (if now - (ttl + 1) ≠ 0 ∧ c ≠ "" then
        (if now - (now - (ttl + 1)) < ttl then (c, some str) else (ec, (none : Option String)))
      else (ec, some str)) = (ec, none)
    rw [if_pos (show now - (ttl + 1) ≠ 0 ∧ c ≠ "" from ⟨h1, hc⟩)]
    rw [if_neg (show ¬ now - (now - (ttl + 1)) < ttl by omega)]
  · show (if now - (ttl - 1) ≠ 0 ∧ c ≠ "" then
        (if now - (now - (ttl - 1)) < ttl then (c, some str) else (ec, (none : Option String)))
      else (ec, some str)) = (c, some str)
    rw [if_pos (show now - (ttl - 1) ≠ 0 ∧ c ≠ "" from ⟨h2, hc⟩)]
    rw [if_pos (show now - (now - (ttl - 1)) < ttl by omega)]

/-- Witness for C6: with now = 100 and TTL = 50, the bundle stamped 49 is
discarded and removed, and the bundle stamped 51 is restored. -/
theorem autosave_ttl_boundary_witness :
    MermaidEditor.loadAutoSave false (some "saved")
        (MermaidEditor.JsonOutcome.success (some ⟨some "code", some 49⟩)) 100 50 "" =
      ("", none)
    ∧ MermaidEditor.loadAutoSave false (some "saved")
        (MermaidEditor.JsonOutcome.success (some ⟨some "code", some 51⟩)) 100 50 "" =
      ("code", some "saved") := by
  have h := autosave_ttl_boundary 100 50 "code" "saved" "" (by decide) (by decide) (by decide)
  exact ⟨h.1, h.2.1⟩

/-- Claim C7: The visibility helper is total and idempotent at its interface:
an absent element yields a no-op restore; an element already visible with
non-zero measured width yields a no-op restore; and for every element the
returned restore function applied twice leaves the style attribute exactly
as applying it once does. -/
theorem visibility_helper_total_idempotent :
    ((MermaidEditor.ensureElementVisible none).1 = MermaidEditor.RestoreFn.noop ∧
      ∀ x : Option MermaidEditor.Elem,
        MermaidEditor.applyRestore (MermaidEditor.ensureElementVisible none).1 x = x)
    ∧ (∀ e : MermaidEditor.Elem,
        e.displayNone = false → e.visibilityHidden = false → e.offsetWidth ≠ 0 →
        (MermaidEditor.ensureElementVisible (some e)).1 = MermaidEditor.RestoreFn.noop)
    ∧ (∀ oe x : Option MermaidEditor.Elem,
        MermaidEditor.applyRestore (MermaidEditor.ensureElementVisible oe).1
            (MermaidEditor.applyRestore (MermaidEditor.ensureElementVisible oe).1 x) =
          MermaidEditor.applyRestore (MermaidEditor.ensureElementVisible oe).1 x) := by
  refine ⟨⟨rfl, ?_⟩, ?_, ?_⟩
  · intro x
    cases x <;> rfl
  · intro e h1 h2 h3
    have hh : MermaidEditor.isHiddenElem e = false := by
      unfold MermaidEditor.isHiddenElem
      rw [h1, h2]
      simp [h3]
    simp [MermaidEditor.ensureElementVisible, MermaidEditor.ensureVisibleE, hh]
  · intro oe x
    exact MermaidEditor.applyRestore_idem _ x

/-- Witness for C7: a visible element with positive width yields the no-op
restore. -/
theorem visibility_helper_total_idempotent_witness :
    (MermaidEditor.ensureElementVisible (some MermaidEditor.visibleElem)).1 =
      MermaidEditor.RestoreFn.noop :=
  visibility_helper_total_idempotent.2.1 MermaidEditor.visibleElem rfl rfl (by decide)

/-- Claim C8: Starting from the initial module state, after any non-empty sequence
of successful `renderDiagram` calls on non-empty input exactly one live
pan/zoom instance exists and it is the one held by the module-level
variable (the previous instance having been destroyed before each creation);
and after the empty-input destruction path the module-level variable is
null. -/
theorem panzoom_exactly_one_instance :
    (∀ (s0 : MermaidEditor.AppState) (steps : List (String × MermaidEditor.RenderInput)),
        s0.pz = ⟨0, [], none⟩ → steps ≠ [] → (∀ p ∈ steps, MermaidEditor.goodStep p) →
        ∃ i, (MermaidEditor.runRenders steps s0).pz.current = some i ∧
          (MermaidEditor.runRenders steps s0).pz.live = [i])
    ∧ (∀ (inp : MermaidEditor.RenderInput) (s : MermaidEditor.AppState),
        MermaidEditor.jsTrim s.editor.content = "" →
        (MermaidEditor.renderDiagram inp s).state.pz.current = none) := by
  constructor
  · intro s0 steps hinit hne hgood
    have hcons : MermaidEditor.pzConsistent s0.pz := by
      rw [hinit]
      rfl
    exact MermaidEditor.runRenders_good steps s0 hcons hne hgood
  · intro inp s h
    rw [MermaidEditor.renderDiagram_empty inp s h]
    exact MermaidEditor.pzDestroyAndNull_current s.pz

/-- Witness for C8: two successful renders leave exactly one live instance. -/
theorem panzoom_exactly_one_instance_witness :
    ∃ i, (MermaidEditor.runRenders
        [("graph TD", ⟨MermaidEditor.ParseOutcome.ok true,
            MermaidEditor.RenderOutcome.ok "<svg/>" true⟩),
         ("graph LR", ⟨MermaidEditor.ParseOutcome.ok true,
            MermaidEditor.RenderOutcome.ok "<svg/>" true⟩)]
        (MermaidEditor.baseState "x")).pz.current = some i ∧
      (MermaidEditor.runRenders
        [("graph TD", ⟨MermaidEditor.ParseOutcome.ok true,
            MermaidEditor.RenderOutcome.ok "<svg/>" true⟩),
         ("graph LR", ⟨MermaidEditor.ParseOutcome.ok true,
            MermaidEditor.RenderOutcome.ok "<svg/>" true⟩)]
        (MermaidEditor.baseState "x")).pz.live = [i] := by
  refine panzoom_exactly_one_instance.1 _ _ rfl (by simp) ?_
  intro p hp
  rcases List.mem_cons.mp hp with rfl | hp
  · exact ⟨by decide, rfl, "<svg/>", rfl⟩
  · rcases List.mem_cons.mp hp with rfl | hp
    · exact ⟨by decide, rfl, "<svg/>", rfl⟩
    · exact absurd hp (List.not_mem_nil p)

/-- Claim C9 counterexample: a failed render attempt whose error carries no line
information leaves the previously active error annotation in place, so it is
false that every render attempt clears prior annotations by the end of the
call. -/
theorem annotation_persists_on_failed_attempt :
    MermaidEditor.markedState.editor.marks = [⟨0, 0, 5, "old"⟩] ∧
    (MermaidEditor.renderDiagram
        ⟨MermaidEditor.ParseOutcome.throws MermaidEditor.noLineError,
          MermaidEditor.RenderOutcome.ok "" true⟩
        MermaidEditor.markedState).state.editor.marks = [⟨0, 0, 5, "old"⟩] :=
  ⟨rfl, by decide⟩

/-- Claim C9 amended: every successful render clears all prior error annotations;
every render call keeps the number of active annotations at most one when it
was at most one before (annotations are only ever replaced by the single new
error mark); failed attempts without extractable line information may leave
the prior annotation in place. -/
theorem annotation_clearing_amended :
    (∀ (inp : MermaidEditor.RenderInput) (s : MermaidEditor.AppState) (svg : String)
        (found : Bool),
        MermaidEditor.jsTrim s.editor.content ≠ "" →
        inp.parse = MermaidEditor.ParseOutcome.ok true →
        inp.render = MermaidEditor.RenderOutcome.ok svg found →
        (MermaidEditor.renderDiagram inp s).state.editor.marks = [])
    ∧ (∀ (inp : MermaidEditor.RenderInput) (s : MermaidEditor.AppState),
        s.editor.marks.length ≤ 1 →
        (MermaidEditor.renderDiagram inp s).state.editor.marks.length ≤ 1) := by
  constructor
  · intro inp s svg found hne hp hr
    exact MermaidEditor.renderDiagram_success_marks inp s svg found hne hp hr
  · intro inp s h
    by_cases hempty : MermaidEditor.jsTrim s.editor.content = ""
    · rw [MermaidEditor.renderDiagram_empty inp s hempty]
      exact h
    · cases hp : inp.parse with
      | throws e =>
        rw [MermaidEditor.renderDiagram_parse_throws inp s e hempty hp]
        exact MermaidEditor.catchHandler_marks_le_one e _ _ s h
      | ok b =>
        cases b with
        | false =>
          rw [MermaidEditor.renderDiagram_parse_false inp s hempty hp]
          exact h
        | true =>
          cases hr : inp.render with
          | throws e =>
            rw [MermaidEditor.renderDiagram_render_throws inp s e hempty hp hr]
            exact MermaidEditor.catchHandler_marks_le_one e _ _ _ h
          | ok svg found =>
            rw [MermaidEditor.renderDiagram_success_marks inp s svg found hempty hp hr]
            simp

/-- Witness for C9 amended: a successful render on non-empty content leaves
no marks. -/
theorem annotation_clearing_amended_witness :
    (MermaidEditor.renderDiagram
        ⟨MermaidEditor.ParseOutcome.ok true, MermaidEditor.RenderOutcome.ok "<svg/>" true⟩
        MermaidEditor.markedState).state.editor.marks = [] :=
  annotation_clearing_amended.1 _ _ "<svg/>" true (by decide) rfl rfl

/-- Claim C10: On load with no URL-provided code, a bundle whose code is the empty
string or whose timestamp is 0 is treated as absent even when the timestamp
is within the TTL: the editor content is unchanged and the storage entry is
neither restored nor removed. -/
theorem falsy_bundle_treated_absent (now ttl : Int) (str ec : String)
    (b : MermaidEditor.SavedBundle)
    (h : b.code = some "" ∨ b.timestamp = some 0) :
    MermaidEditor.loadAutoSave false (some str)
        (MermaidEditor.JsonOutcome.success (some b)) now ttl ec = (ec, some str) := by
  cases hts : b.timestamp with
  | none => simp [MermaidEditor.loadAutoSave, hts]
  | some ts =>
    cases hcode : b.code with
    | none => simp [MermaidEditor.loadAutoSave, hts, hcode]
    | some c =>
      have hno : ¬ (ts ≠ 0 ∧ c ≠ "") := by
        rcases h with h | h
        · have hc : c = "" := by
            rw [hcode] at h
            exact Option.some.inj h
          exact fun hcon => hcon.2 hc
        · have ht : ts = 0 := by
            rw [hts] at h
            exact Option.some.inj h
          exact fun hcon => hcon.1 ht
      simp [MermaidEditor.loadAutoSave, hts, hcode, hno]

/-- Witness for C10: an in-TTL bundle with empty code is ignored and kept. -/
theorem falsy_bundle_treated_absent_witness :
    MermaidEditor.loadAutoSave false (some "saved")
        (MermaidEditor.JsonOutcome.success (some ⟨some "", some 99⟩)) 100 50 "ed" =
      ("ed", some "saved") :=
  falsy_bundle_treated_absent 100 50 "saved" "ed" ⟨some "", some 99⟩ (Or.inl rfl)

end MermaidEditor
